import Mathlib

/-!
Verification of the charge-behaviour controller in `src/main.rs` of
macsmc-charged.

The program polls a battery's capacity (an `i8` percentage) and its current
charge behaviour, and computes a new behaviour with the pure function
`calc_behaviour`.  We embed the enum `ChargeBehaviour`, the decision function
`calc_behaviour` (capacity as `Int`, with the signed-8-bit range carried as a
hypothesis where a claim asks for it), the `FromStr` parser and the `Display`
serializer, and one iteration of the polling loop's read-compare-write body.
-/

namespace Macsmc

/-- The `ChargeBehaviour` enum of `src/main.rs` (variants `Auto`,
`ForceDischarge`, `InhibitCharge`). -/
inductive ChargeBehaviour : Type
  | Auto : ChargeBehaviour
  | ForceDischarge : ChargeBehaviour
  | InhibitCharge : ChargeBehaviour
  deriving DecidableEq, Repr

/-- `const LOW_THRESHOLD: i8 = 70;` -/
def LOW_THRESHOLD : Int := 70

/-- `const HIGH_THRESHOLD: i8 = 80;` -/
def HIGH_THRESHOLD : Int := 80

/-- The signed 8-bit range of the Rust `i8` capacity readings. -/
def i8Range (c : Int) : Prop := -128 ≤ c ∧ c ≤ 127

instance (c : Int) : Decidable (i8Range c) := by
  unfold i8Range; infer_instance

/-- `fn calc_behaviour(cap: i8, cb: &ChargeBehaviour) -> ChargeBehaviour`,
translated arm by arm in the source's match order (first match wins):
`(c, _) if c > HIGH_THRESHOLD => ForceDischarge`;
`(c, _) if c < LOW_THRESHOLD => Auto`;
`(c, Auto) if c < HIGH_THRESHOLD => Auto`;
`(c, ForceDischarge) if c < HIGH_THRESHOLD => InhibitCharge`;
`(_, _) => InhibitCharge`. -/
def calc_behaviour (cap : Int) (cb : ChargeBehaviour) : ChargeBehaviour :=
  if HIGH_THRESHOLD < cap then ChargeBehaviour.ForceDischarge
  else if cap < LOW_THRESHOLD then ChargeBehaviour.Auto
  else if cb = ChargeBehaviour.Auto ∧ cap < HIGH_THRESHOLD then
    ChargeBehaviour.Auto
  else if cb = ChargeBehaviour.ForceDischarge ∧ cap < HIGH_THRESHOLD then
    ChargeBehaviour.InhibitCharge
  else ChargeBehaviour.InhibitCharge

/-- Rust's `str::trim`: remove leading and trailing whitespace characters,
modelled at the character level (drop whitespace from the front, then from
the back). -/
def rustTrim (s : String) : String :=
  String.mk
    (((s.data.dropWhile Char.isWhitespace).reverse.dropWhile
        Char.isWhitespace).reverse)

/-- `impl FromStr for ChargeBehaviour`: trim the input, then match it against
the three canonical strings; anything else is an error (modelled as `none`). -/
def fromStr (s : String) : Option ChargeBehaviour :=
  let t := rustTrim s
  if t = "auto" then some ChargeBehaviour.Auto
  else if t = "force-discharge" then some ChargeBehaviour.ForceDischarge
  else if t = "inhibit-charge" then some ChargeBehaviour.InhibitCharge
  else none

/-- `impl Display for ChargeBehaviour`: the canonical textual form written by
`fmt` (and by `set_behaviour` via `to_string`). -/
def toDisplayString : ChargeBehaviour → String
  | ChargeBehaviour.Auto => "auto"
  | ChargeBehaviour.ForceDischarge => "force-discharge"
  | ChargeBehaviour.InhibitCharge => "inhibit-charge"

/-- One iteration of the polling loop's body in `main` at a fixed capacity
reading: compute `be_new = calc_behaviour cap be`; if it differs from the
current behaviour, write it (flag `true`), otherwise write nothing (flag
`false`).  The first component is the behaviour the external store holds
after the iteration. -/
def loopStep (cap : Int) (be : ChargeBehaviour) : ChargeBehaviour × Bool :=
  let beNew := calc_behaviour cap be
  if be ≠ beNew then (beNew, true) else (be, false)

/-- C1: for every signed-8-bit capacity `c > 80` and every current behaviour,
`calc_behaviour` returns `ForceDischarge`. -/
theorem calc_behaviour_high_forces_discharge (c : Int) (b : ChargeBehaviour)
    (hr : i8Range c) (h : 80 < c) :
    calc_behaviour c b = ChargeBehaviour.ForceDischarge := by
  unfold calc_behaviour HIGH_THRESHOLD
  rw [if_pos h]

/-- Witness for C1 at `c = 100`, `b = Auto`. -/
theorem calc_behaviour_high_forces_discharge_witness :
    i8Range 100 ∧ (80 : Int) < 100 ∧
      calc_behaviour 100 ChargeBehaviour.Auto
        = ChargeBehaviour.ForceDischarge :=
  ⟨by decide, by decide,
    calc_behaviour_high_forces_discharge 100 ChargeBehaviour.Auto
      (by decide) (by decide)⟩

/-- C2: for every signed-8-bit capacity `c < 70` (negative out-of-range
readings included) and every current behaviour, `calc_behaviour` returns
`Auto`. -/
theorem calc_behaviour_low_returns_auto (c : Int) (b : ChargeBehaviour)
    (hr : i8Range c) (h : c < 70) :
    calc_behaviour c b = ChargeBehaviour.Auto := by
  unfold calc_behaviour HIGH_THRESHOLD LOW_THRESHOLD
  rw [if_neg (by omega), if_pos h]

/-- Witness for C2 at `c = -5`, `b = InhibitCharge`. -/
theorem calc_behaviour_low_returns_auto_witness :
    i8Range (-5) ∧ (-5 : Int) < 70 ∧
      calc_behaviour (-5) ChargeBehaviour.InhibitCharge
        = ChargeBehaviour.Auto :=
  ⟨by decide, by decide,
    calc_behaviour_low_returns_auto (-5) ChargeBehaviour.InhibitCharge
      (by decide) (by decide)⟩

/-- C3: with current behaviour `Auto`, every capacity in `[70, 80)` keeps
`Auto`, and at exactly `c = 80` the result is `InhibitCharge`. -/
theorem calc_behaviour_auto_band (c : Int) (hr : i8Range c)
    (hlo : 70 ≤ c) (hhi : c < 80) :
    calc_behaviour c ChargeBehaviour.Auto = ChargeBehaviour.Auto ∧
      calc_behaviour 80 ChargeBehaviour.Auto = ChargeBehaviour.InhibitCharge := by
  constructor
  · unfold calc_behaviour HIGH_THRESHOLD LOW_THRESHOLD
    rw [if_neg (by omega), if_neg (by omega), if_pos ⟨rfl, hhi⟩]
  · decide

/-- Witness for C3 at `c = 75`. -/
theorem calc_behaviour_auto_band_witness :
    i8Range 75 ∧ (70 : Int) ≤ 75 ∧ (75 : Int) < 80 ∧
      (calc_behaviour 75 ChargeBehaviour.Auto = ChargeBehaviour.Auto ∧
        calc_behaviour 80 ChargeBehaviour.Auto
          = ChargeBehaviour.InhibitCharge) :=
  ⟨by decide, by decide, by decide,
    calc_behaviour_auto_band 75 (by decide) (by decide) (by decide)⟩

/-- C4 counterexample: at `c = 80` with current behaviour `Auto`,
`calc_behaviour` does NOT return `Auto` (it returns `InhibitCharge`), so the
claim that `Auto` persists throughout `70 ≤ c ≤ 80` fails at its upper
endpoint. -/
theorem calc_behaviour_auto_at_80_not_auto :
    ¬ (calc_behaviour 80 ChargeBehaviour.Auto = ChargeBehaviour.Auto) := by
  decide

/-- C4 amended: with current behaviour `Auto`, every capacity in the band
strictly below the high threshold, `70 ≤ c < 80`, keeps `Auto`. -/
theorem calc_behaviour_auto_stays_auto_below_high (c : Int) (hr : i8Range c)
    (hlo : 70 ≤ c) (hhi : c < 80) :
    calc_behaviour c ChargeBehaviour.Auto = ChargeBehaviour.Auto := by
  unfold calc_behaviour HIGH_THRESHOLD LOW_THRESHOLD
  rw [if_neg (by omega), if_neg (by omega), if_pos ⟨rfl, hhi⟩]

/-- Witness for C4's amended theorem at `c = 79`. -/
theorem calc_behaviour_auto_stays_auto_below_high_witness :
    i8Range 79 ∧ (70 : Int) ≤ 79 ∧ (79 : Int) < 80 ∧
      calc_behaviour 79 ChargeBehaviour.Auto = ChargeBehaviour.Auto :=
  ⟨by decide, by decide, by decide,
    calc_behaviour_auto_stays_auto_below_high 79 (by decide) (by decide)
      (by decide)⟩

/-- C5: with current behaviour `ForceDischarge`, every capacity in
`[70, 80]` (endpoint included) yields `InhibitCharge`. -/
theorem calc_behaviour_force_discharge_band (c : Int) (hr : i8Range c)
    (hlo : 70 ≤ c) (hhi : c ≤ 80) :
    calc_behaviour c ChargeBehaviour.ForceDischarge
      = ChargeBehaviour.InhibitCharge := by
  unfold calc_behaviour HIGH_THRESHOLD LOW_THRESHOLD
  rw [if_neg (by omega), if_neg (by omega), if_neg (by simp)]
  by_cases h : c < 80
  · rw [if_pos ⟨rfl, h⟩]
  · rw [if_neg (by simp [h])]

/-- Witness for C5 at `c = 80`. -/
theorem calc_behaviour_force_discharge_band_witness :
    i8Range 80 ∧ (70 : Int) ≤ 80 ∧ (80 : Int) ≤ 80 ∧
      calc_behaviour 80 ChargeBehaviour.ForceDischarge
        = ChargeBehaviour.InhibitCharge :=
  ⟨by decide, by decide, by decide,
    calc_behaviour_force_discharge_band 80 (by decide) (by decide)
      (by decide)⟩

/-- C6: with current behaviour `InhibitCharge`, every capacity in `[70, 80]`
keeps `InhibitCharge`. -/
theorem calc_behaviour_inhibit_band (c : Int) (hr : i8Range c)
    (hlo : 70 ≤ c) (hhi : c ≤ 80) :
    calc_behaviour c ChargeBehaviour.InhibitCharge
      = ChargeBehaviour.InhibitCharge := by
  unfold calc_behaviour HIGH_THRESHOLD LOW_THRESHOLD
  rw [if_neg (by omega), if_neg (by omega), if_neg (by simp), if_neg (by simp)]

/-- Witness for C6 at `c = 70`. -/
theorem calc_behaviour_inhibit_band_witness :
    i8Range 70 ∧ (70 : Int) ≤ 70 ∧ (70 : Int) ≤ 80 ∧
      calc_behaviour 70 ChargeBehaviour.InhibitCharge
        = ChargeBehaviour.InhibitCharge :=
  ⟨by decide, by decide, by decide,
    calc_behaviour_inhibit_band 70 (by decide) (by decide) (by decide)⟩

/-- C7: serialization round-trip: parsing the display string of every
`ChargeBehaviour` variant yields that variant back. -/
theorem fromStr_toDisplayString_roundtrip (b : ChargeBehaviour) :
    fromStr (toDisplayString b) = some b := by
  cases b <;> decide

/-- C8: parsing succeeds exactly when the trimmed input is one of the three
canonical case-sensitive strings; every other string is a parse error
(`none`). -/
theorem fromStr_isSome_iff (s : String) :
    (fromStr s).isSome ↔
      (rustTrim s = "auto" ∨ rustTrim s = "force-discharge" ∨
        rustTrim s = "inhibit-charge") := by
  unfold fromStr
  dsimp only
  split_ifs with h1 h2 h3 <;> simp_all

/-- C9: totality determinism: for every signed-8-bit capacity and every
current behaviour, `calc_behaviour` is defined and its value is one of the
three variants; being a Lean function it is deterministic by construction. -/
theorem calc_behaviour_total (c : Int) (b : ChargeBehaviour)
    (hr : i8Range c) :
    calc_behaviour c b = ChargeBehaviour.Auto ∨
      calc_behaviour c b = ChargeBehaviour.ForceDischarge ∨
      calc_behaviour c b = ChargeBehaviour.InhibitCharge := by
  cases h : calc_behaviour c b
  · exact Or.inl rfl
  · exact Or.inr (Or.inl rfl)
  · exact Or.inr (Or.inr rfl)

/-- Witness for C9 at `c = 0`, `b = Auto`. -/
theorem calc_behaviour_total_witness :
    i8Range 0 ∧
      (calc_behaviour 0 ChargeBehaviour.Auto = ChargeBehaviour.Auto ∨
        calc_behaviour 0 ChargeBehaviour.Auto
          = ChargeBehaviour.ForceDischarge ∨
        calc_behaviour 0 ChargeBehaviour.Auto
          = ChargeBehaviour.InhibitCharge) :=
  ⟨by decide, calc_behaviour_total 0 ChargeBehaviour.Auto (by decide)⟩

/-- C10: `calc_behaviour` is idempotent in its behaviour argument at a fixed
capacity, and consequently a second loop iteration at the same capacity
reading performs no write. -/
theorem calc_behaviour_idempotent (c : Int) (b : ChargeBehaviour)
    (hr : i8Range c) :
    calc_behaviour c (calc_behaviour c b) = calc_behaviour c b ∧
      (loopStep c (loopStep c b).1).2 = false := by
  have hidem : calc_behaviour c (calc_behaviour c b) = calc_behaviour c b := by
    cases b <;>
      · unfold calc_behaviour HIGH_THRESHOLD LOW_THRESHOLD
        split_ifs <;> simp_all
  refine ⟨hidem, ?_⟩
  have hfst : (loopStep c b).1 = calc_behaviour c b := by
    unfold loopStep
    dsimp only
    split_ifs with h
    · rfl
    · exact not_not.mp h
  rw [hfst]
  unfold loopStep
  dsimp only
  rw [if_neg (not_not.mpr hidem.symm)]

/-- Witness for C10 at `c = 75`, `b = ForceDischarge`. -/
theorem calc_behaviour_idempotent_witness :
    i8Range 75 ∧
      (calc_behaviour 75 (calc_behaviour 75 ChargeBehaviour.ForceDischarge)
          = calc_behaviour 75 ChargeBehaviour.ForceDischarge ∧
        (loopStep 75 (loopStep 75 ChargeBehaviour.ForceDischarge).1).2
          = false) :=
  ⟨by decide,
    calc_behaviour_idempotent 75 ChargeBehaviour.ForceDischarge (by decide)⟩

end Macsmc
